import Mathlib

/-!
Verification of the heapprofd static client bootstrap
(`src/profiling/memory/client_ext_static.cc`).

The file shallowly embeds the three functions of that translation unit —
`MonitorFd`, `ForkHeapprofd` (including the daemon-side file-descriptor
watch callback it registers) and `ConstructClient` — as pure Lean
functions over explicit environments describing the outcomes of the
external OS/socket primitives, producing ordered event traces and
explicit resulting state.  Theorems about those functions settle the
specification claims.
-/

/-- A `base::UnixSocketRaw`: an optional owned file descriptor plus a
blocking-mode flag.  `fd = none` models an invalid (default-constructed
or released) socket; `operator bool` is `isValid`. -/
structure UnixSocketRaw where
  fd : Option Nat
  blocking : Bool
deriving Repr, DecidableEq

/-- A default-constructed `base::UnixSocketRaw()`: no descriptor. -/
def UnixSocketRaw.mkDefault : UnixSocketRaw := ⟨none, true⟩

/-- `operator bool` of `base::UnixSocketRaw`: holds a valid descriptor. -/
def UnixSocketRaw.isValid (s : UnixSocketRaw) : Bool := s.fd.isSome

/-- `UnixSocketRaw::IsBlocking()`. -/
def UnixSocketRaw.IsBlocking (s : UnixSocketRaw) : Bool := s.blocking

/-- Modelled from the spec: the ChannelPair creation primitive
(`base::UnixSocketRaw::CreatePair`, not part of this translation unit).
Per §6 it "returns two connected local endpoints or an explicit
failure"; endpoints start in blocking mode (§4.2 requires the parent
endpoint to be blocking and §4.1 has the child explicitly toggle its
endpoint to non-blocking, so creation yields blocking endpoints).  On
failure both returned sockets are invalid, which is what the callers
test with `operator bool`.  `ok` is the creation outcome; `fdA`, `fdB`
the descriptors handed out on success. -/
def CreatePair (ok : Bool) (fdA fdB : Nat) : UnixSocketRaw × UnixSocketRaw :=
  if ok then (⟨some fdA, true⟩, ⟨some fdB, true⟩)
  else (UnixSocketRaw.mkDefault, UnixSocketRaw.mkDefault)

/-- The allocator / deallocator function pointers passed to
`heapprofd_init_session(malloc, free)`. -/
inductive AllocatorFn
  | malloc
  | free
deriving Repr, DecidableEq

/-- Observable actions of the `MonitorFd` loop. -/
inductive MonEvent
  | initSession (alloc dealloc : AllocatorFn)
  | logDisconnected
  | logReceiveFailed
deriving Repr, DecidableEq

/-- `MonitorFd` (lines 51–65): loop of blocking one-byte receives on
`g_client_sock`.  The input list is the sequence of `Receive` return
values (`ssize_t`: positive = bytes received, `0` = peer disconnected,
negative = error) the loop observes; the result is the ordered trace of
its actions.  `r >= 1` invokes `heapprofd_init_session(malloc, free)`
and loops; `r == 0` logs and breaks permanently; an error logs and
retries.  An exhausted input list models the loop parked forever in a
blocking receive. -/
def MonitorFd : List Int → List MonEvent
  | [] => []
  | r :: rs =>
    if 1 ≤ r then
      MonEvent.initSession AllocatorFn.malloc AllocatorFn.free :: MonitorFd rs
    else if r = 0 then
      [MonEvent.logDisconnected]
    else
      MonEvent.logReceiveFailed :: MonitorFd rs

/-- The `PERFETTO_DCHECK(g_client_sock->IsBlocking())` assertion at the
top of `MonitorFd` (line 52), as a predicate on the socket the loop
reads from. -/
def monitorFdAssertion (s : UnixSocketRaw) : Bool := s.IsBlocking

/-- Observable actions of the daemon-side file-descriptor watch callback
registered by `ForkHeapprofd` (lines 128–142). -/
inductive DaemonEvent
  | logChildDisconnected
  | exitProcess
  | logRecvError
  | adoptSocket (fd : Nat)
deriving Repr, DecidableEq

/-- The lambda registered with `task_runner.AddFileDescriptorWatch` on
`srv_sock.fd()` (lines 128–142).  `r` is the `Receive` return value,
`fd` the descriptor the receive delivered (if any), `again` whether
`errno` is a would-block error (`base::IsAgain`).  `r == 0` logs and
calls `_exit(0)` — nothing later runs; `r == -1 && !again` logs and
continues; a delivered descriptor is handed to `producer.AdoptSocket`. -/
def heapprofdFdWatchCallback (r : Int) (fd : Option Nat) (again : Bool) :
    List DaemonEvent :=
  if r = 0 then
    [DaemonEvent.logChildDisconnected, DaemonEvent.exitProcess]
  else
    (if r = -1 ∧ ¬again then [DaemonEvent.logRecvError] else []) ++
    (match fd with
     | some f => [DaemonEvent.adoptSocket f]
     | none => [])

example : MonitorFd [1, -1, 0, 5] =
    [MonEvent.initSession AllocatorFn.malloc AllocatorFn.free,
     MonEvent.logReceiveFailed, MonEvent.logDisconnected] := by decide

example : heapprofdFdWatchCallback 1 (some 7) false =
    [DaemonEvent.adoptSocket 7] := by decide

/-- Outcome of the `fork()` call as observed by one process: failure
(`fork` returned `-1`), the parent branch (`f > 0`, carrying whether the
subsequent `waitpid` succeeded), or the child branch (`f == 0`). -/
inductive ForkOutcome
  | fail
  | parent (waitpidOk : Bool)
  | child
deriving Repr, DecidableEq

/-- Environment for one run of `ForkHeapprofd`: the outcomes of the
external primitives it calls (`GetCmdlineForPID`, `CreatePair`, `fork`,
`open("/dev/null")`). -/
structure BootEnv where
  cmdlineOk : Bool
  pairOk : Bool
  cliFd : Nat
  srvFd : Nat
  forkOutcome : ForkOutcome
  nullFd : Nat
deriving Repr, DecidableEq

/-- Observable actions of `ForkHeapprofd`, in program order. -/
inductive BootEvent
  | logCmdlineFailed
  | logPairFailed
  | callFork
  | logForkFailed
  | waitChild
  | logWaitpidFailed
  | storeClientSock
  | startMonitorThread
  | bootReturn
  | daemonize
  | releaseCliFd
  | redirectStdinToNull
  | redirectStdoutToNull
  | closeFd (i : Nat)
  | setSrvNonBlocking
  | startWatchdog
  | constructProducer
  | setTargetProcess
  | connectWithRetries
  | setDataSourceCallback
  | addFdWatch
  | runTaskRunner
deriving Repr, DecidableEq

/-- The descriptors closed by the bounded scan of the child path
(lines 113–116): `for (int i = STDERR_FILENO + 1; i < 512; ++i)
if (i != srv_sock.fd()) close(i);` with `STDERR_FILENO = 2`. -/
def closeScan (srvFd : Nat) : List Nat :=
  (List.range 512).filter (fun i => decide (2 < i ∧ i ≠ srvFd))

/-- Result of a run of `ForkHeapprofd` in one process: the value of the
process-wide `g_client_sock` pointer afterwards (`none` models a null
pointer, `some s` a pointer to a socket with value `s`) and the ordered
trace of observable actions in that process. -/
structure BootResult where
  g_client_sock : Option UnixSocketRaw
  events : List BootEvent
deriving Repr, DecidableEq

/-- `ForkHeapprofd` (lines 67–144), the library constructor.  It captures
pid and cmdline (failure only logged), unconditionally allocates
`g_client_sock` as a default socket, creates the control socket pair
(failure: log and return), forks (failure: log and return); the parent
waits for the child, stores `cli_sock` into `*g_client_sock`, starts the
detached `MonitorFd` thread and returns; the child daemonizes, releases
`cli_sock`'s descriptor, redirects stdin/stdout to `/dev/null`, closes
all descriptors from `STDERR_FILENO + 1` up to 512 except
`srv_sock.fd()`, sets `srv_sock` non-blocking, and sets up and runs the
producer event loop. -/
def ForkHeapprofd (env : BootEnv) : BootResult :=
  let ev0 : List BootEvent :=
    if env.cmdlineOk then [] else [BootEvent.logCmdlineFailed]
  let gInit : Option UnixSocketRaw := some UnixSocketRaw.mkDefault
  let pair := CreatePair env.pairOk env.cliFd env.srvFd
  let cli_sock := pair.1
  let srv_sock := pair.2
  if !cli_sock.isValid || !srv_sock.isValid then
    ⟨gInit, ev0 ++ [BootEvent.logPairFailed, BootEvent.bootReturn]⟩
  else
    match env.forkOutcome with
    | ForkOutcome.fail =>
        ⟨gInit, ev0 ++ [BootEvent.callFork, BootEvent.logForkFailed,
                        BootEvent.bootReturn]⟩
    | ForkOutcome.parent waitpidOk =>
        ⟨some cli_sock,
          ev0 ++ [BootEvent.callFork, BootEvent.waitChild] ++
          (if waitpidOk then [] else [BootEvent.logWaitpidFailed]) ++
          [BootEvent.storeClientSock, BootEvent.startMonitorThread,
           BootEvent.bootReturn]⟩
    | ForkOutcome.child =>
        ⟨gInit,
          ev0 ++ [BootEvent.callFork, BootEvent.daemonize,
                  BootEvent.releaseCliFd, BootEvent.redirectStdinToNull,
                  BootEvent.redirectStdoutToNull] ++
          (if 2 < env.nullFd then [BootEvent.closeFd env.nullFd] else []) ++
          (closeScan env.srvFd).map BootEvent.closeFd ++
          [BootEvent.setSrvNonBlocking, BootEvent.startWatchdog,
           BootEvent.constructProducer, BootEvent.setTargetProcess,
           BootEvent.connectWithRetries, BootEvent.setDataSourceCallback,
           BootEvent.addFdWatch, BootEvent.runTaskRunner]⟩

/-- The persistent control channel as seen from the profiled-process
side: whether the daemon side is gone (`closed`) and the messages
successfully sent so far (byte value with optional accompanying
descriptor). -/
structure ControlChannel where
  closed : Bool
  sentMsgs : List (Nat × Option Nat)
deriving Repr, DecidableEq

/-- Modelled from the spec: `base::UnixSocketRaw::Send` of one byte with
one accompanying descriptor on the persistent channel (the socket
primitive is outside this translation unit).  §5: the channel "becomes
closed if the daemon exits — a send in that case must fail observably
rather than corrupt state"; §4.3: the byte-plus-descriptor send is a
single atomic unit.  Returns the updated channel and the success flag
(the C++ return value `>= 0`). -/
def ControlChannel.sendByteFd (ch : ControlChannel) (b : Nat) (fd : Option Nat) :
    ControlChannel × Bool :=
  if ch.closed then (ch, false)
  else ({ ch with sentMsgs := ch.sentMsgs ++ [(b, fd)] }, true)

/-- A `std::shared_ptr<Client>` that is non-null: the session object
built on the retained endpoint. -/
structure ClientHandle where
  sock : UnixSocketRaw
deriving Repr, DecidableEq

/-- Modelled from the spec: `Client::CreateAndHandshake` (client.cc, not
in this translation unit).  §6: the client-side session object is
"constructed via a handshake call taking an endpoint …, returning a
shared/owned handle or a failure"; §8: if the daemon has exited the
handshake must surface an observable failure rather than hang.  The
handshake succeeds only on a valid endpoint whose peer descriptor was
delivered to the daemon (`delivered`) and whose application-level
exchange succeeds (`handshakeOk`). -/
def CreateAndHandshake (sock : UnixSocketRaw) (delivered handshakeOk : Bool) :
    Option ClientHandle :=
  if sock.isValid && delivered && handshakeOk then some ⟨sock⟩ else none

/-- Environment for one `ConstructClient` call: outcome of the session
channel-pair creation, the two descriptors on success, and the outcome
of the delegated application-level handshake. -/
structure SessionEnv where
  pairOk : Bool
  srvFd : Nat
  cliFd : Nat
  handshakeOk : Bool
deriving Repr, DecidableEq

/-- Observable actions of one `ConstructClient` call. -/
inductive SessEvent
  | logPairFailed
  | releaseFd (fd : Nat)
  | sendCtrl (b : Nat) (fd : Nat) (ok : Bool)
  | handshake
deriving Repr, DecidableEq

/-- The marker byte `" "` sent alongside the session descriptor. -/
def markerByte : Nat := 32

/-- Result of one `ConstructClient` call: the returned
`std::shared_ptr<Client>` (`none` = null), the persistent channel
afterwards, and the ordered trace of actions. -/
structure SessionResult where
  client : Option ClientHandle
  chan : ControlChannel
  events : List SessEvent
deriving Repr, DecidableEq

/-- `ConstructClient` (lines 150–169).  Creates a session socket pair
(`std::tie(srv_session_sock, client_session_sock) = CreatePair(...)`);
on failure logs and returns null without touching the persistent
channel.  On success releases `srv_session_sock`'s descriptor, sends it
with the one marker byte `" "` over `*g_client_sock` (the send's return
value is not checked), and returns
`Client::CreateAndHandshake(std::move(client_session_sock), ...)`. -/
def ConstructClient (env : SessionEnv) (ch : ControlChannel) : SessionResult :=
  let pair := CreatePair env.pairOk env.srvFd env.cliFd
  let srv_session_sock := pair.1
  let client_session_sock := pair.2
  if !client_session_sock.isValid || !srv_session_sock.isValid then
    ⟨none, ch, [SessEvent.logPairFailed]⟩
  else
    let fd := env.srvFd
    let sendRes := ch.sendByteFd markerByte (some fd)
    ⟨CreateAndHandshake client_session_sock sendRes.2 env.handshakeOk,
     sendRes.1,
     [SessEvent.releaseFd fd, SessEvent.sendCtrl markerByte fd sendRes.2,
      SessEvent.handshake]⟩

lemma monitorFd_append_zero (pre post : List Int) (h : ∀ r ∈ pre, r ≠ 0) :
    MonitorFd (pre ++ 0 :: post) = MonitorFd pre ++ [MonEvent.logDisconnected] := by
  induction pre with
  | nil => simp [MonitorFd]
  | cons r rs ih =>
    have hr : r ≠ 0 := h r (List.mem_cons_self _ _)
    have hrs : ∀ x ∈ rs, x ≠ 0 := fun x hx => h x (List.mem_cons_of_mem _ hx)
    by_cases h1 : 1 ≤ r
    · simp [MonitorFd, h1, ih hrs]
    · simp [MonitorFd, h1, hr, ih hrs]

lemma monitorFd_count_init (pre : List Int) (h : ∀ r ∈ pre, r ≠ 0) :
    (MonitorFd pre).count
        (MonEvent.initSession AllocatorFn.malloc AllocatorFn.free) =
      (pre.filter (fun r => decide (1 ≤ r))).length := by
  induction pre with
  | nil => simp [MonitorFd]
  | cons r rs ih =>
    have hr : r ≠ 0 := h r (List.mem_cons_self _ _)
    have hrs : ∀ x ∈ rs, x ≠ 0 := fun x hx => h x (List.mem_cons_of_mem _ hx)
    by_cases h1 : 1 ≤ r
    · simp [MonitorFd, h1, List.count_cons, ih hrs]
    · simp [MonitorFd, h1, hr, List.count_cons, ih hrs]

lemma monitorFd_count_err (pre : List Int) (h : ∀ r ∈ pre, r ≠ 0) :
    (MonitorFd pre).count MonEvent.logReceiveFailed =
      (pre.filter (fun r => decide (r < 0))).length := by
  induction pre with
  | nil => simp [MonitorFd]
  | cons r rs ih =>
    have hr : r ≠ 0 := h r (List.mem_cons_self _ _)
    have hrs : ∀ x ∈ rs, x ≠ 0 := fun x hx => h x (List.mem_cons_of_mem _ hx)
    by_cases h1 : 1 ≤ r
    · have : ¬ r < 0 := by omega
      simp [MonitorFd, h1, this, List.count_cons, ih hrs]
    · have : r < 0 := by omega
      simp [MonitorFd, h1, hr, this, List.count_cons, ih hrs]

/-- C3: each iteration of the `MonitorFd` loop behaves as specified: a
receive of ≥ 1 byte invokes `heapprofd_init_session(malloc, free)` and
the loop continues; a receive of 0 bytes logs and terminates the loop
permanently (later receive results are never processed); a receive error
logs and retries.  Consequently, over any run in which the peer has not
disconnected, the initialization entry point is invoked exactly once per
receipt of ≥ 1 byte, and errors are each logged. -/
theorem c3_monitorFd_loop :
    (∀ r rs, 1 ≤ r → MonitorFd (r :: rs) =
        MonEvent.initSession AllocatorFn.malloc AllocatorFn.free ::
          MonitorFd rs) ∧
    (∀ rs, MonitorFd ((0 : Int) :: rs) = [MonEvent.logDisconnected]) ∧
    (∀ r rs, r < 0 → MonitorFd (r :: rs) =
        MonEvent.logReceiveFailed :: MonitorFd rs) ∧
    (∀ pre post, (∀ r ∈ pre, r ≠ 0) →
        MonitorFd (pre ++ 0 :: post) =
          MonitorFd pre ++ [MonEvent.logDisconnected]) ∧
    (∀ pre, (∀ r ∈ pre, r ≠ 0) →
        (MonitorFd pre).count
            (MonEvent.initSession AllocatorFn.malloc AllocatorFn.free) =
          (pre.filter (fun r => decide (1 ≤ r))).length ∧
        (MonitorFd pre).count MonEvent.logReceiveFailed =
          (pre.filter (fun r => decide (r < 0))).length) := by
  refine ⟨?_, ?_, ?_, ?_, ?_⟩
  · intro r rs h1
    simp [MonitorFd, h1]
  · intro rs
    simp [MonitorFd]
  · intro r rs hneg
    have h1 : ¬ 1 ≤ r := by omega
    have h0 : r ≠ 0 := by omega
    simp [MonitorFd, h1, h0]
  · intro pre post h
    exact monitorFd_append_zero pre post h
  · intro pre h
    exact ⟨monitorFd_count_init pre h, monitorFd_count_err pre h⟩

/-- Witness for C3 at concrete inputs. -/
theorem c3_monitorFd_loop_witness :
    MonitorFd ([(2 : Int), -3] ++ 0 :: [9]) =
      MonitorFd [(2 : Int), -3] ++ [MonEvent.logDisconnected] ∧
    (MonitorFd [(2 : Int), -3]).count
        (MonEvent.initSession AllocatorFn.malloc AllocatorFn.free) =
      ([(2 : Int), -3].filter (fun r => decide (1 ≤ r))).length :=
  ⟨c3_monitorFd_loop.2.2.2.1 [2, -3] [9] (by decide),
   (c3_monitorFd_loop.2.2.2.2 [2, -3] (by decide)).1⟩

/-- C4: the daemon-side watch callback on the control endpoint: a
zero-length read logs and terminates the daemon process immediately (and
only a zero-length read does); a `-1` receive result is logged exactly
when `errno` is not a would-block error, and the handler continues
(never exits) on any nonzero receive result; every delivered descriptor
(which can only accompany a nonzero receive result) is handed to
`producer.AdoptSocket`. -/
theorem c4_daemon_watch_callback :
    (∀ fd again, heapprofdFdWatchCallback 0 fd again =
        [DaemonEvent.logChildDisconnected, DaemonEvent.exitProcess]) ∧
    (∀ r fd again, r ≠ 0 →
        DaemonEvent.exitProcess ∉ heapprofdFdWatchCallback r fd again) ∧
    (∀ fd again,
        DaemonEvent.logRecvError ∈ heapprofdFdWatchCallback (-1) fd again ↔
          again = false) ∧
    (∀ r f again, r ≠ 0 →
        DaemonEvent.adoptSocket f ∈
          heapprofdFdWatchCallback r (some f) again) := by
  refine ⟨?_, ?_, ?_, ?_⟩
  · intro fd again
    simp [heapprofdFdWatchCallback]
  · intro r fd again h
    simp only [heapprofdFdWatchCallback, if_neg h]
    rcases fd with _ | f <;> by_cases ha : r = -1 ∧ ¬again <;> simp [ha]
  · intro fd again
    have hne : (-1 : Int) ≠ 0 := by decide
    simp only [heapprofdFdWatchCallback, if_neg hne]
    rcases fd with _ | f <;> cases again <;> simp
  · intro r f again h
    simp only [heapprofdFdWatchCallback, if_neg h]
    by_cases ha : r = -1 ∧ ¬again <;> simp [ha]

/-- Witness for C4 at concrete inputs. -/
theorem c4_daemon_watch_callback_witness :
    DaemonEvent.adoptSocket 7 ∈ heapprofdFdWatchCallback 1 (some 7) false ∧
    DaemonEvent.exitProcess ∉ heapprofdFdWatchCallback 1 (some 7) false :=
  ⟨c4_daemon_watch_callback.2.2.2 1 7 false (by decide),
   c4_daemon_watch_callback.2.1 1 (some 7) false (by decide)⟩

/-- C1: a `ConstructClient` call whose session channel-pair creation
succeeds (on an open persistent channel) releases the daemon-bound
endpoint's descriptor from its pair wrapper, sends that descriptor with
exactly one marker byte over the persistent control channel (exactly one
message is appended), and returns the result of constructing the
client-side session object from the retained endpoint via
`Client::CreateAndHandshake` — a handle when the handshake succeeds,
null when it fails. -/
theorem c1_constructClient_success (env : SessionEnv) (ch : ControlChannel)
    (hp : env.pairOk = true) (hopen : ch.closed = false) :
    (ConstructClient env ch).events =
      [SessEvent.releaseFd env.srvFd,
       SessEvent.sendCtrl markerByte env.srvFd true, SessEvent.handshake] ∧
    (ConstructClient env ch).chan.sentMsgs =
      ch.sentMsgs ++ [(markerByte, some env.srvFd)] ∧
    (ConstructClient env ch).client =
      CreateAndHandshake ⟨some env.cliFd, true⟩ true env.handshakeOk ∧
    ((ConstructClient env ch).client.isSome ↔ env.handshakeOk = true) := by
  refine ⟨?_, ?_, ?_, ?_⟩ <;>
    simp [ConstructClient, CreatePair, hp, hopen, ControlChannel.sendByteFd,
          UnixSocketRaw.isValid, CreateAndHandshake]

/-- Witness for C1 at concrete inputs. -/
theorem c1_constructClient_success_witness :
    (ConstructClient ⟨true, 5, 6, true⟩ ⟨false, []⟩).events =
      [SessEvent.releaseFd 5, SessEvent.sendCtrl markerByte 5 true,
       SessEvent.handshake] ∧
    (ConstructClient ⟨true, 5, 6, true⟩ ⟨false, []⟩).client.isSome :=
  ⟨(c1_constructClient_success ⟨true, 5, 6, true⟩ ⟨false, []⟩ rfl rfl).1,
   (c1_constructClient_success ⟨true, 5, 6, true⟩ ⟨false, []⟩ rfl
      rfl).2.2.2.mpr rfl⟩

/-- C2: a `ConstructClient` call whose session channel-pair creation
fails logs the failure, returns null, and performs no send on the
persistent control channel, whose state is unchanged. -/
theorem c2_constructClient_pair_failure (env : SessionEnv)
    (ch : ControlChannel) (hp : env.pairOk = false) :
    (ConstructClient env ch).client = none ∧
    (ConstructClient env ch).chan = ch ∧
    (ConstructClient env ch).events = [SessEvent.logPairFailed] ∧
    (∀ b fd ok, SessEvent.sendCtrl b fd ok ∉ (ConstructClient env ch).events) := by
  refine ⟨?_, ?_, ?_, ?_⟩ <;>
    simp [ConstructClient, CreatePair, hp, UnixSocketRaw.isValid,
          UnixSocketRaw.mkDefault]

/-- Witness for C2 at concrete inputs. -/
theorem c2_constructClient_pair_failure_witness :
    (ConstructClient ⟨false, 5, 6, true⟩ ⟨false, [(1, none)]⟩).client = none ∧
    (ConstructClient ⟨false, 5, 6, true⟩ ⟨false, [(1, none)]⟩).chan =
      ⟨false, [(1, none)]⟩ :=
  ⟨(c2_constructClient_pair_failure ⟨false, 5, 6, true⟩ ⟨false, [(1, none)]⟩
      rfl).1,
   (c2_constructClient_pair_failure ⟨false, 5, 6, true⟩ ⟨false, [(1, none)]⟩
      rfl).2.1⟩

/-- C8: when the persistent channel is closed (the daemon has exited), a
`ConstructClient` call that creates its session pair does not hang: its
send on the persistent channel fails observably (the trace records the
send with a failure outcome and nothing is appended to the channel) and
the call returns a null result to its caller. -/
theorem c8_constructClient_daemon_gone (env : SessionEnv)
    (ch : ControlChannel) (hp : env.pairOk = true) (hc : ch.closed = true) :
    SessEvent.sendCtrl markerByte env.srvFd false ∈
      (ConstructClient env ch).events ∧
    (ConstructClient env ch).chan.sentMsgs = ch.sentMsgs ∧
    (ConstructClient env ch).client = none := by
  refine ⟨?_, ?_, ?_⟩ <;>
    simp [ConstructClient, CreatePair, hp, hc, ControlChannel.sendByteFd,
          UnixSocketRaw.isValid, CreateAndHandshake]

/-- Witness for C8 at concrete inputs. -/
theorem c8_constructClient_daemon_gone_witness :
    SessEvent.sendCtrl markerByte 5 false ∈
      (ConstructClient ⟨true, 5, 6, true⟩ ⟨true, []⟩).events ∧
    (ConstructClient ⟨true, 5, 6, true⟩ ⟨true, []⟩).client = none :=
  ⟨(c8_constructClient_daemon_gone ⟨true, 5, 6, true⟩ ⟨true, []⟩ rfl rfl).1,
   (c8_constructClient_daemon_gone ⟨true, 5, 6, true⟩ ⟨true, []⟩ rfl
      rfl).2.2⟩

/-- C5: on the child (daemon) path, after daemonizing and redirecting
stdin and stdout to the null device, the bounded scan closes exactly the
descriptors from `STDERR_FILENO + 1` up to the fixed ceiling 512 other
than the daemon-side endpoint `srv_sock.fd()`; in particular the scan
never closes standard error (2) or the daemon-side endpoint, and the
daemonize and redirection steps precede every close of the scan in the
trace. -/
theorem c5_child_close_scan (env : BootEnv) (hp : env.pairOk = true)
    (hc : env.forkOutcome = ForkOutcome.child) :
    (∀ i, i ∈ closeScan env.srvFd ↔ (3 ≤ i ∧ i < 512 ∧ i ≠ env.srvFd)) ∧
    (2 ∉ closeScan env.srvFd) ∧
    (env.srvFd ∉ closeScan env.srvFd) ∧
    (∃ pre post,
      (ForkHeapprofd env).events =
        pre ++ (closeScan env.srvFd).map BootEvent.closeFd ++ post ∧
      BootEvent.daemonize ∈ pre ∧
      BootEvent.redirectStdinToNull ∈ pre ∧
      BootEvent.redirectStdoutToNull ∈ pre) := by
  refine ⟨?_, ?_, ?_, ?_⟩
  · intro i
    simp only [closeScan, List.mem_filter, List.mem_range, decide_eq_true_eq]
    constructor
    · rintro ⟨h1, h2, h3⟩
      exact ⟨by omega, h1, h3⟩
    · rintro ⟨h1, h2, h3⟩
      exact ⟨h2, by omega, h3⟩
  · simp [closeScan, List.mem_filter]
  · simp [closeScan, List.mem_filter]
  · refine ⟨(if env.cmdlineOk then [] else [BootEvent.logCmdlineFailed]) ++
      [BootEvent.callFork, BootEvent.daemonize, BootEvent.releaseCliFd,
       BootEvent.redirectStdinToNull, BootEvent.redirectStdoutToNull] ++
      (if 2 < env.nullFd then [BootEvent.closeFd env.nullFd] else []),
      [BootEvent.setSrvNonBlocking, BootEvent.startWatchdog,
       BootEvent.constructProducer, BootEvent.setTargetProcess,
       BootEvent.connectWithRetries, BootEvent.setDataSourceCallback,
       BootEvent.addFdWatch, BootEvent.runTaskRunner], ?_, ?_, ?_, ?_⟩
    · simp [ForkHeapprofd, hc, hp, CreatePair, UnixSocketRaw.isValid]
    · cases env.cmdlineOk <;> simp
    · cases env.cmdlineOk <;> simp
    · cases env.cmdlineOk <;> simp

/-- Witness for C5 at a concrete environment. -/
theorem c5_child_close_scan_witness :
    2 ∉ closeScan 5 ∧ 5 ∉ closeScan 5 ∧ 17 ∈ closeScan 5 :=
  ⟨(c5_child_close_scan ⟨true, true, 4, 5, ForkOutcome.child, 3⟩ rfl
      rfl).2.1,
   (c5_child_close_scan ⟨true, true, 4, 5, ForkOutcome.child, 3⟩ rfl
      rfl).2.2.1,
   ((c5_child_close_scan ⟨true, true, 4, 5, ForkOutcome.child, 3⟩ rfl
      rfl).1 17).mpr (by decide)⟩

/-- C6: on the parent path of bootstrap, the trace ends with the store
of the control-channel endpoint into the process-wide state, then the
start of the `MonitorFd` thread, then the return — adjacent and in that
order — and the wait for the immediate child occurs strictly before all
of them; none of the three final steps occurs earlier.  The endpoint
stored is the parent-side socket from pair creation, so it is assigned
before the monitor thread can run. -/
theorem c6_parent_order (env : BootEnv) (w : Bool) (hp : env.pairOk = true)
    (hf : env.forkOutcome = ForkOutcome.parent w) :
    ∃ pre,
      (ForkHeapprofd env).events =
        pre ++ [BootEvent.storeClientSock, BootEvent.startMonitorThread,
                BootEvent.bootReturn] ∧
      BootEvent.waitChild ∈ pre ∧
      BootEvent.storeClientSock ∉ pre ∧
      BootEvent.startMonitorThread ∉ pre ∧
      BootEvent.bootReturn ∉ pre ∧
      (ForkHeapprofd env).g_client_sock = some ⟨some env.cliFd, true⟩ := by
  refine ⟨(if env.cmdlineOk then [] else [BootEvent.logCmdlineFailed]) ++
      [BootEvent.callFork, BootEvent.waitChild] ++
      (if w then [] else [BootEvent.logWaitpidFailed]), ?_, ?_, ?_, ?_, ?_, ?_⟩
  · simp [ForkHeapprofd, hf, hp, CreatePair, UnixSocketRaw.isValid]
  · cases env.cmdlineOk <;> cases w <;> simp
  · cases env.cmdlineOk <;> cases w <;> simp
  · cases env.cmdlineOk <;> cases w <;> simp
  · cases env.cmdlineOk <;> cases w <;> simp
  · simp [ForkHeapprofd, hf, hp, CreatePair, UnixSocketRaw.isValid]

/-- Witness for C6 at a concrete environment. -/
theorem c6_parent_order_witness :
    (ForkHeapprofd ⟨true, true, 4, 5, ForkOutcome.parent true, 3⟩).g_client_sock =
      some ⟨some 4, true⟩ := by
  obtain ⟨pre, h1, h2, h3, h4, h5, h6⟩ :=
    c6_parent_order ⟨true, true, 4, 5, ForkOutcome.parent true, 3⟩ true rfl rfl
  exact h6

/-- C7: if channel-pair creation fails, bootstrap logs it and returns
without ever calling `fork`, daemonizing, or starting the monitor
thread; if `fork` fails, bootstrap logs it and returns without a daemon
(no daemonization, no event loop) and without starting the monitor
thread; a failure to obtain the command line is only logged, and
bootstrap continues to the point of starting the monitor on an otherwise
successful parent path. -/
theorem c7_bootstrap_failures (env : BootEnv) :
    (env.pairOk = false →
      BootEvent.logPairFailed ∈ (ForkHeapprofd env).events ∧
      BootEvent.callFork ∉ (ForkHeapprofd env).events ∧
      BootEvent.startMonitorThread ∉ (ForkHeapprofd env).events ∧
      BootEvent.daemonize ∉ (ForkHeapprofd env).events ∧
      BootEvent.bootReturn ∈ (ForkHeapprofd env).events) ∧
    (env.pairOk = true → env.forkOutcome = ForkOutcome.fail →
      BootEvent.logForkFailed ∈ (ForkHeapprofd env).events ∧
      BootEvent.startMonitorThread ∉ (ForkHeapprofd env).events ∧
      BootEvent.daemonize ∉ (ForkHeapprofd env).events ∧
      BootEvent.runTaskRunner ∉ (ForkHeapprofd env).events ∧
      BootEvent.bootReturn ∈ (ForkHeapprofd env).events) ∧
    (env.cmdlineOk = false →
      BootEvent.logCmdlineFailed ∈ (ForkHeapprofd env).events) ∧
    (∀ w, env.cmdlineOk = false → env.pairOk = true →
      env.forkOutcome = ForkOutcome.parent w →
      BootEvent.startMonitorThread ∈ (ForkHeapprofd env).events) := by
  refine ⟨?_, ?_, ?_, ?_⟩
  · intro hp
    simp only [ForkHeapprofd, hp, CreatePair, UnixSocketRaw.isValid,
      UnixSocketRaw.mkDefault]
    cases env.cmdlineOk <;> simp
  · intro hp hf
    simp only [ForkHeapprofd, hp, hf, CreatePair, UnixSocketRaw.isValid]
    cases env.cmdlineOk <;> simp
  · intro hc
    rcases env with ⟨c, p, cf, sf, fo, nf⟩
    cases hc
    cases p <;> rcases fo with _ | w | _ <;>
      simp [ForkHeapprofd, CreatePair, UnixSocketRaw.isValid,
        UnixSocketRaw.mkDefault]
  · intro w hc hp hf
    simp only [ForkHeapprofd, hp, hf, CreatePair, UnixSocketRaw.isValid]
    cases env.cmdlineOk <;> cases w <;> simp

/-- Witness for C7 at a concrete environment. -/
theorem c7_bootstrap_failures_witness :
    BootEvent.logPairFailed ∈
      (ForkHeapprofd ⟨true, false, 4, 5, ForkOutcome.fail, 3⟩).events ∧
    BootEvent.startMonitorThread ∉
      (ForkHeapprofd ⟨true, false, 4, 5, ForkOutcome.fail, 3⟩).events :=
  ⟨((c7_bootstrap_failures ⟨true, false, 4, 5, ForkOutcome.fail, 3⟩).1
      rfl).1,
   ((c7_bootstrap_failures ⟨true, false, 4, 5, ForkOutcome.fail, 3⟩).1
      rfl).2.2.1⟩

/-- C9: on the parent path the process-wide endpoint stored before the
monitor thread starts is the blocking parent-side socket from pair
creation, so `MonitorFd`'s `PERFETTO_DCHECK(g_client_sock->IsBlocking())`
holds, and the parent path never switches an endpoint to non-blocking;
only the child (daemon) path makes its own endpoint non-blocking. -/
theorem c9_monitor_endpoint_blocking (env : BootEnv) (w : Bool)
    (hp : env.pairOk = true) (hf : env.forkOutcome = ForkOutcome.parent w) :
    (∃ s, (ForkHeapprofd env).g_client_sock = some s ∧
      s.IsBlocking = true ∧ monitorFdAssertion s = true ∧
      BootEvent.setSrvNonBlocking ∉ (ForkHeapprofd env).events) ∧
    (∀ env2 : BootEnv, env2.pairOk = true →
      env2.forkOutcome = ForkOutcome.child →
      BootEvent.setSrvNonBlocking ∈ (ForkHeapprofd env2).events) := by
  constructor
  · refine ⟨⟨some env.cliFd, true⟩, ?_, rfl, rfl, ?_⟩
    · simp [ForkHeapprofd, hf, hp, CreatePair, UnixSocketRaw.isValid]
    · simp only [ForkHeapprofd, hf, hp, CreatePair, UnixSocketRaw.isValid]
      cases env.cmdlineOk <;> cases w <;> simp
  · intro env2 hp2 hc2
    simp only [ForkHeapprofd, hp2, hc2, CreatePair, UnixSocketRaw.isValid]
    cases env2.cmdlineOk <;> simp

/-- Witness for C9 at a concrete environment. -/
theorem c9_monitor_endpoint_blocking_witness :
    BootEvent.setSrvNonBlocking ∉
      (ForkHeapprofd ⟨true, true, 4, 5, ForkOutcome.parent true, 3⟩).events := by
  obtain ⟨⟨s, hs, hb, ha, hn⟩, hchild⟩ :=
    c9_monitor_endpoint_blocking ⟨true, true, 4, 5, ForkOutcome.parent true, 3⟩
      true rfl rfl
  exact hn

/-- C10: after any run of `ForkHeapprofd`, the process-wide
`g_client_sock` pointer is non-null (it is allocated unconditionally
before pair creation); a real socket is assigned only on the parent path
after a successful fork, where the monitor thread is then started; on
every other path (pair-creation failure, fork failure, child) the
pointee remains the default invalid socket and the monitor thread is
never started, so no thread ever uses it. -/
theorem c10_g_client_sock_invariant (env : BootEnv) :
    (ForkHeapprofd env).g_client_sock ≠ none ∧
    UnixSocketRaw.mkDefault.isValid = false ∧
    (env.pairOk = false →
      (ForkHeapprofd env).g_client_sock = some UnixSocketRaw.mkDefault) ∧
    (env.forkOutcome = ForkOutcome.fail →
      (ForkHeapprofd env).g_client_sock = some UnixSocketRaw.mkDefault) ∧
    (∀ w, env.pairOk = true → env.forkOutcome = ForkOutcome.parent w →
      (ForkHeapprofd env).g_client_sock = some ⟨some env.cliFd, true⟩ ∧
      BootEvent.startMonitorThread ∈ (ForkHeapprofd env).events) ∧
    ((env.pairOk = false ∨ env.forkOutcome = ForkOutcome.fail ∨
        env.forkOutcome = ForkOutcome.child) →
      BootEvent.startMonitorThread ∉ (ForkHeapprofd env).events) := by
  rcases env with ⟨c, p, cf, sf, fo, nf⟩
  refine ⟨?_, rfl, ?_, ?_, ?_, ?_⟩
  · cases p <;> rcases fo with _ | w | _ <;>
      simp [ForkHeapprofd, CreatePair, UnixSocketRaw.isValid,
        UnixSocketRaw.mkDefault]
  · intro hp
    cases hp
    simp [ForkHeapprofd, CreatePair, UnixSocketRaw.isValid,
      UnixSocketRaw.mkDefault]
  · intro hf
    cases hf
    cases p <;>
      simp [ForkHeapprofd, CreatePair, UnixSocketRaw.isValid,
        UnixSocketRaw.mkDefault]
  · intro w hp hf
    cases hp
    cases hf
    constructor
    · simp [ForkHeapprofd, CreatePair, UnixSocketRaw.isValid]
    · simp only [ForkHeapprofd, CreatePair, UnixSocketRaw.isValid]
      cases c <;> cases w <;> simp
  · intro h
    rcases h with hp | hf | hc
    · cases hp
      simp only [ForkHeapprofd, CreatePair, UnixSocketRaw.isValid,
        UnixSocketRaw.mkDefault]
      cases c <;> simp
    · cases hf
      cases p <;> simp only [ForkHeapprofd, CreatePair,
        UnixSocketRaw.isValid, UnixSocketRaw.mkDefault] <;>
        cases c <;> simp
    · cases hc
      cases p <;> simp only [ForkHeapprofd, CreatePair,
        UnixSocketRaw.isValid, UnixSocketRaw.mkDefault] <;>
        cases c <;> simp

/-- Witness for C10 at a concrete environment. -/
theorem c10_g_client_sock_invariant_witness :
    (ForkHeapprofd ⟨true, true, 4, 5, ForkOutcome.parent true, 3⟩).g_client_sock ≠
      none ∧
    (ForkHeapprofd ⟨true, true, 4, 5, ForkOutcome.parent true, 3⟩).g_client_sock =
      some ⟨some 4, true⟩ := by
  have h := c10_g_client_sock_invariant ⟨true, true, 4, 5, ForkOutcome.parent true, 3⟩
  exact ⟨h.1, (h.2.2.2.2.1 true rfl rfl).1⟩
